import Mathlib

/-!
Shallow embedding of the R2-bench benchmark control engine.

The definitions below translate the Go sources of the repository:
the worker loop, the ramp-up loop, the plateau selection, the result
channel and the startup checks of `main.go` (src/unnamed/part_008) and
`validity_check.go`, together with the record types of `types.go`.
Machine integers (`int`, `int64`) are modelled as `Int`; `float64`
quantities are modelled as `ℚ`; randomness and I/O responses are passed
in explicitly as oracle inputs, one per loop iteration.
-/

namespace R2Bench

/-- Benchmark configuration, translated field by field from `Config` in
`types.go` (the fields are filled from the command-line flags in
`initializeBenchmark`). -/
structure Config where
  URL : String
  InstanceType : String
  RangeSize : Int
  SteadyStateHours : Int
  BucketName : String
  ObjectKey : String
  ObjectSize : Int
  WarmupMinutes : Int
  RampStepMinutes : Int
  RampStepSize : Int
  MaxConcurrency : Int
deriving DecidableEq

/-- Result of a single GET request, translated from `RequestResult` in
`types.go`.  `time.Time` is abstracted as a `Nat` instant and `float64`
as `ℚ`.  The fields `RTTUs`, `TCPRetx` and `LinkUtilPct` are never set
by the worker, so they keep their Go zero values. -/
structure RequestResult where
  Timestamp : Nat
  ThreadID : Int
  ConnID : Int
  ObjectKey : String
  RangeStart : Int
  RangeLen : Int
  Bytes : Int
  LatencyMs : ℚ
  HTTPStatus : Int
  RetryCount : Int
  ErrMsg : String
  InstanceType : String
  Concurrency : Int
  RTTUs : Int
  TCPRetx : Int
  LinkUtilPct : ℚ
deriving DecidableEq

/-- Oracle input for one iteration of the worker loop: the outcome of
the environment interactions the Go code performs in that iteration.
`beforeEnd` is the value of `time.Now().Before(endTime)` at the loop
head; `stopObserved` is whether the `select` on `stopChan` finds the
channel closed; `r` feeds `rand.Int63n`; `bytesReceived` is `len(data)`
and `errMsg` the error returned by `client.GetObjectRange`;
`backendStatus` is the HTTP status the backend actually answered with
(it is not exposed through the `GetObjectRange` interface, which
returns only bytes and an error). -/
structure IterInput where
  beforeEnd : Bool
  stopObserved : Bool
  r : Nat
  bytesReceived : Nat
  errMsg : Option String
  backendStatus : Nat
  latencyUs : Nat
  timestamp : Nat
deriving DecidableEq

/-- The `RequestResult` built by one successful pass through the body of
`BenchmarkRunner.worker` (part_008 lines 284-321; identically `worker`
in `validity_check.go` lines 188-226): range sampling via
`rand.Int63n(maxStart)` (uniform on `[0, maxStart)`, modelled as
`r % maxStart`), the dead-code range-length clamp, and the literal
record with `HTTPStatus` 200 overwritten to 500 when the call errored. -/
def iterOutcome (cfg : Config) (threadID concurrency : Int) (i : IterInput) : RequestResult :=
  let maxStart := cfg.ObjectSize - cfg.RangeSize
  let rangeStart : Int := (i.r : Int) % maxStart
  let rangeLen : Int :=
    if rangeStart + cfg.RangeSize > cfg.ObjectSize then cfg.ObjectSize - rangeStart
    else cfg.RangeSize
  { Timestamp := i.timestamp
    ThreadID := threadID
    ConnID := threadID % concurrency
    ObjectKey := cfg.ObjectKey
    RangeStart := rangeStart
    RangeLen := rangeLen
    Bytes := (i.bytesReceived : Int)
    LatencyMs := (i.latencyUs : ℚ) / 1000
    HTTPStatus := if i.errMsg.isSome then 500 else 200
    RetryCount := 0
    ErrMsg := i.errMsg.getD ""
    InstanceType := cfg.InstanceType
    Concurrency := concurrency
    RTTUs := 0
    TCPRetx := 0
    LinkUtilPct := 0 }

/-- The worker loop of `BenchmarkRunner.worker` (part_008 lines 274-330),
run over an explicit per-iteration oracle trace.  The checks appear in
source order: the loop condition `time.Now().Before(endTime)`, the
non-blocking `select` on `stopChan`, the `maxStart <= 0` guard (which
makes the worker return), then one request producing exactly one
outcome.  The returned list is the sequence of outcomes the worker
hands to the results channel. -/
def workerRun (cfg : Config) (threadID concurrency : Int) : List IterInput → List RequestResult
  | [] => []
  | i :: rest =>
    if i.beforeEnd = false then []
    else if i.stopObserved = true then []
    else if cfg.ObjectSize - cfg.RangeSize ≤ 0 then []
    else iterOutcome cfg threadID concurrency i :: workerRun cfg threadID concurrency rest

/-- Errors that can abort the run before any worker is spawned.
Translated from the fatal paths executed before `runPhase` starts
workers: the flag check in `main` (part_008 lines 55-57) and the
object-existence check in `runBenchmark` (lines 174-180).  Client and
parquet-writer construction failures are external-I/O failures, not
configuration checks, and carry no information about the range/object
sizes. -/
inductive StartupError where
  | missingFlags
  | objectMissing
deriving DecidableEq

/-- Every check the program performs before any worker starts,
in source order (part_008: `main` lines 55-57, then `runBenchmark`
lines 174-180).  Neither `main`, `initializeBenchmark` nor
`runBenchmark` compares `RangeSize` with `ObjectSize`. -/
def startupChecks (cfg : Config) (objectExists : Bool) : Option StartupError :=
  if cfg.URL = "" ∨ cfg.InstanceType = "" ∨ cfg.BucketName = "" then some .missingFlags
  else if objectExists = false then some .objectMissing
  else none

/-- The sequence of concurrency levels exercised by
`BenchmarkRunner.runRampUp` (part_008 lines 228-262): starting from
`current`, one step per loop pass while `current ≤ maxC`, then
`current += step`.  `fuel` bounds the number of loop passes (an early
user stop yields a prefix of this list). -/
def rampLevels : Nat → Int → Int → Int → List Int
  | 0, _, _, _ => []
  | fuel + 1, current, maxC, step =>
    if current ≤ maxC then current :: rampLevels fuel (current + step) maxC step else []

/-- `BenchmarkRunner.findOptimalConcurrency` (part_008 lines 264-272):
the body ignores all collected metrics and returns the constant 50,
while its own comment says the ramp-up metrics should be analysed to
find the best-throughput concurrency level. -/
def findOptimalConcurrency : Int := 50

/-- Capacity of the `results` channel created in `initializeBenchmark`
(part_008 line 159: `make(chan RequestResult, 10000)`). -/
def resultsChanCapacity : Nat := 10000

/-- Observable state of the result hand-off: the buffered channel
contents and the number of `"Results channel full, dropping result"`
warnings logged so far (part_008 lines 323-328). -/
structure SinkState where
  queue : List RequestResult
  warnings : Nat
deriving DecidableEq

/-- The non-blocking send of part_008 lines 323-328 (identically
`validity_check.go` lines 227-233): `select` with a `default` branch —
if the channel has room the outcome is enqueued, otherwise the outcome
is discarded and a warning is logged.  No other state is touched. -/
def offerResult (s : SinkState) (r : RequestResult) : SinkState :=
  if s.queue.length < resultsChanCapacity then
    { queue := s.queue ++ [r], warnings := s.warnings }
  else
    { queue := s.queue, warnings := s.warnings + 1 }

/-- Offering a whole sequence of outcomes to the results channel, one
`offerResult` at a time. -/
def drainToSink (s : SinkState) : List RequestResult → SinkState
  | [] => s
  | r :: rs => drainToSink (offerResult s r) rs

/-- The only message `runBenchmark` emits when the run ends
(part_008 line 198: `log.Printf("Benchmark completed successfully")`).
It is a constant: the function takes the number of drop warnings as an
argument purely to state that the final message does not depend on it —
the code keeps no drop count that the summary could read. -/
def benchmarkCompletionLog (_dropWarnings : Nat) : String :=
  "Benchmark completed successfully"

/-- Modelled from the spec: the level with the maximum observed
throughput in a ramp history (`argmax` across observed levels); part of
the PlateauDetector of spec §4.6, whose implementation is not among the
provided Go sources. -/
def bestObservedLevel (history : List (Int × ℚ)) : Option Int :=
  (history.foldl
    (fun best p =>
      match best with
      | none => some p
      | some q => if q.2 < p.2 then some p else some q)
    none).map Prod.fst

/-- Modelled from the spec: the PlateauDetector selection rule of
§4.6 — the repository carries no Go implementation of it (the only
selection code, `findOptimalConcurrency`, is a stub).  With `T_n` the
latest completed step's throughput and `T_{n-1}` the previous step's,
if `(T_n - T_{n-1}) / T_{n-1} < growthThreshold` the detector stops and
selects the level with the maximum observed throughput so far;
otherwise it continues (`none`). -/
def plateauSelect (history : List (Int × ℚ)) (growthThreshold : ℚ) : Option Int :=
  match history.getLast?, history.dropLast.getLast? with
  | some pn, some pprev =>
    if (pn.2 - pprev.2) / pprev.2 < growthThreshold then bestObservedLevel history else none
  | _, _ => none

/-- Running accumulator of the MetricsAggregator over one window. -/
structure WindowAcc where
  requestCount : Nat
  byteCount : Int
deriving DecidableEq

/-- Closed per-window statistics (spec §3 WindowStats). -/
structure WindowStats where
  requestCount : Nat
  byteCount : Int
  throughputBitsPerSec : ℚ
deriving DecidableEq

/-- Modelled from the spec: `MetricsAggregator.Observe` of §4.5 — the
windowed aggregation code of this repository lives in its Python
visualization/benchmark harness, which is not among the provided
sources (only its README and callers are); one outcome adds its byte
count to the open window. -/
def observeOutcome (acc : WindowAcc) (r : RequestResult) : WindowAcc :=
  { requestCount := acc.requestCount + 1, byteCount := acc.byteCount + r.Bytes }

/-- Modelled from the spec: `MetricsAggregator.CloseWindow` of §4.5 —
throughput is the window's total bytes × 8 divided by the window's
wall-clock duration in seconds, in bits/s. -/
def closeWindow (acc : WindowAcc) (durationSec : ℚ) : WindowStats :=
  { requestCount := acc.requestCount
    byteCount := acc.byteCount
    throughputBitsPerSec := (acc.byteCount : ℚ) * 8 / durationSec }

/-- A configuration with every flag set and the default object key,
used to instantiate the theorems below at concrete inputs. -/
def baseConfig : Config :=
  { URL := "https://acc.r2.cloudflarestorage.com"
    InstanceType := "c5n.9xlarge"
    RangeSize := 100
    SteadyStateHours := 3
    BucketName := "bench"
    ObjectKey := "test-object-1gb"
    ObjectSize := 1024
    WarmupMinutes := 5
    RampStepMinutes := 1
    RampStepSize := 10
    MaxConcurrency := 200 }

/-- A configuration whose range is strictly larger than the object. -/
def cfgRangeTooBig : Config := { baseConfig with ObjectSize := 100, RangeSize := 200 }

/-- A configuration whose range equals the object size. -/
def cfgRangeEqual : Config := { baseConfig with ObjectSize := 4, RangeSize := 4 }

/-- A configuration whose range is strictly smaller than the object. -/
def cfgRangeSmall : Config := { baseConfig with ObjectSize := 4, RangeSize := 2 }

/-- An iteration whose loop checks all pass and whose request succeeds. -/
def aliveIter : IterInput :=
  { beforeEnd := true, stopObserved := false, r := 0, bytesReceived := 100,
    errMsg := none, backendStatus := 200, latencyUs := 1000, timestamp := 0 }

/-- A second live iteration with a different random draw. -/
def aliveIter2 : IterInput := { aliveIter with r := 1, timestamp := 1 }

/-- An iteration at which the worker observes the closed stop channel. -/
def stopIter : IterInput := { aliveIter with stopObserved := true }

/-- An iteration whose storage call fails (the backend answered 503). -/
def failIter : IterInput :=
  { aliveIter with
    errMsg := some "connection reset by peer"
    bytesReceived := 0
    backendStatus := 503 }

/-- An iteration whose backend answered 404 but whose client call
reported no error. -/
def iter404 : IterInput := { aliveIter with backendStatus := 404 }

/-- A concrete request outcome, distinguished by its thread id. -/
def sampleResult (tid : Int) : RequestResult :=
  { Timestamp := 0, ThreadID := tid, ConnID := 0, ObjectKey := "test-object-1gb",
    RangeStart := 0, RangeLen := 1, Bytes := 0, LatencyMs := 0, HTTPStatus := 200,
    RetryCount := 0, ErrMsg := "", InstanceType := "t", Concurrency := 1,
    RTTUs := 0, TCPRetx := 0, LinkUtilPct := 0 }

/-- A results channel filled to capacity. -/
def fullQueue : List RequestResult := List.replicate resultsChanCapacity (sampleResult 0)

/-! ## Helper lemmas about the worker loop and the ramp loop -/

theorem workerRun_nil (cfg : Config) (tid c : Int) : workerRun cfg tid c [] = [] := rfl

theorem workerRun_cons (cfg : Config) (tid c : Int) (i : IterInput) (rest : List IterInput) :
    workerRun cfg tid c (i :: rest) =
      if i.beforeEnd = false then []
      else if i.stopObserved = true then []
      else if cfg.ObjectSize - cfg.RangeSize ≤ 0 then []
      else iterOutcome cfg tid c i :: workerRun cfg tid c rest := rfl

theorem mem_workerRun {cfg : Config} {tid c : Int} {trace : List IterInput}
    {res : RequestResult} (h : res ∈ workerRun cfg tid c trace) :
    cfg.RangeSize < cfg.ObjectSize ∧ ∃ i ∈ trace, res = iterOutcome cfg tid c i := by
  induction trace with
  | nil => cases h
  | cons i rest ih =>
    rw [workerRun_cons] at h
    by_cases hb : i.beforeEnd = false
    · rw [if_pos hb] at h; cases h
    · rw [if_neg hb] at h
      by_cases hs : i.stopObserved = true
      · rw [if_pos hs] at h; cases h
      · rw [if_neg hs] at h
        by_cases hg : cfg.ObjectSize - cfg.RangeSize ≤ 0
        · rw [if_pos hg] at h; cases h
        · rw [if_neg hg] at h
          rcases List.mem_cons.mp h with h1 | h2
          · exact ⟨by omega, i, List.mem_cons_self i rest, h1⟩
          · obtain ⟨hlt, j, hj, hr⟩ := ih h2
            exact ⟨hlt, j, List.mem_cons_of_mem i hj, hr⟩

theorem workerRun_guard_nil {cfg : Config} (hg : cfg.ObjectSize ≤ cfg.RangeSize)
    (tid c : Int) (trace : List IterInput) : workerRun cfg tid c trace = [] := by
  cases trace with
  | nil => rfl
  | cons i rest =>
    rw [workerRun_cons]
    by_cases hb : i.beforeEnd = false
    · rw [if_pos hb]
    · rw [if_neg hb]
      by_cases hs : i.stopObserved = true
      · rw [if_pos hs]
      · rw [if_neg hs, if_pos (by omega)]

theorem rampLevels_head {fuel : Nat} {current maxC step x : Int}
    (h : (rampLevels fuel current maxC step).head? = some x) : x = current := by
  cases fuel with
  | zero => cases h
  | succ n =>
    rw [rampLevels] at h
    by_cases hc : current ≤ maxC
    · rw [if_pos hc] at h
      simpa using h.symm
    · rw [if_neg hc] at h; cases h

theorem rampLevels_chain (fuel : Nat) (current maxC step : Int) (hstep : 0 ≤ step) :
    List.Chain' (· ≤ ·) (rampLevels fuel current maxC step) := by
  induction fuel generalizing current with
  | zero => simp [rampLevels]
  | succ n ih =>
    rw [rampLevels]
    by_cases hc : current ≤ maxC
    · rw [if_pos hc]
      refine List.chain'_cons'.mpr ⟨?_, ih (current + step)⟩
      intro y hy
      have hy' : y = current + step := rampLevels_head (Option.mem_def.mp hy)
      omega
    · rw [if_neg hc]; simp

/-! ## Claim theorems -/

/-- C1: the code does not implement the claimed plateau selection.  For
the ramp history [(10, 100), (20, 102)] with a 5% growth threshold the
relative growth is 2% < 5%, so the prescribed selection is concurrency
20, the observed-throughput argmax; but the steady-state concurrency the
program uses is the constant `findOptimalConcurrency` = 50, which is not
even one of the observed levels. -/
theorem c1_plateau_selection_ignored :
    plateauSelect [(10, 100), (20, 102)] (5 / 100) = some 20 ∧
    findOptimalConcurrency = 50 ∧
    findOptimalConcurrency ≠ 20 ∧
    findOptimalConcurrency ∉ ([10, 20] : List Int) := by
  refine ⟨?_, rfl, by decide, by decide⟩
  norm_num [plateauSelect, bestObservedLevel, List.foldl]

/-- C2: with rangeLength > objectSize (objectSize 100, rangeSize 200,
all flags set, test object present) every check the program performs
before spawning workers passes — no fatal configuration error is raised
— and the condition is instead detected inside an already-started
worker, whose first admitted iteration returns without producing any
outcome. -/
theorem c2_no_prestart_range_check :
    startupChecks cfgRangeTooBig true = none ∧
    workerRun cfgRangeTooBig 0 1 [aliveIter] = [] :=
  ⟨rfl, rfl⟩

/-- C5 counterexample: a sequence of two sampled requests in which both
target the same single object key (the configured "test-object-1gb"),
refuting that more than one distinct object key is ever targeted. -/
theorem c5_single_key_counterexample :
    (workerRun baseConfig 0 2 [aliveIter, aliveIter2]).map RequestResult.ObjectKey
      = ["test-object-1gb", "test-object-1gb"] := rfl

/-- C5 amended: object keys are not chosen round-robin over a pool;
every request a worker issues targets the single configured object key
(a key pool of size one). -/
theorem c5_single_configured_key (cfg : Config) (tid c : Int)
    (trace : List IterInput) (res : RequestResult)
    (h : res ∈ workerRun cfg tid c trace) :
    res.ObjectKey = cfg.ObjectKey := by
  obtain ⟨-, i, -, rfl⟩ := mem_workerRun h
  rfl

/-- C5 witness: the amended theorem applied to one concrete request of
a concrete run. -/
theorem c5_single_configured_key_witness :
    (iterOutcome baseConfig 0 1 aliveIter).ObjectKey = baseConfig.ObjectKey :=
  c5_single_configured_key baseConfig 0 1 [aliveIter] _ (List.mem_singleton_self _)

/-- C7: the concurrency levels exercised by the ramp loop form a
non-decreasing sequence whenever the ramp step size is non-negative
(an early stop yields a prefix, which stays non-decreasing), and within
any phase every outcome carries the single concurrency value the phase
was started with — in particular the SteadyState phase runs frozen at
the one chosen level. -/
theorem c7_concurrency_monotone_then_frozen :
    (∀ (fuel : Nat) (c0 maxC step : Int), 0 ≤ step →
        List.Chain' (· ≤ ·) (rampLevels fuel c0 maxC step)) ∧
    (∀ (cfg : Config) (tid c : Int) (trace : List IterInput) (res : RequestResult),
        res ∈ workerRun cfg tid c trace → res.Concurrency = c) := by
  constructor
  · exact fun fuel c0 maxC step h => rampLevels_chain fuel c0 maxC step h
  · intro cfg tid c trace res h
    obtain ⟨-, i, -, rfl⟩ := mem_workerRun h
    rfl

/-- C7 witness: the theorem applied at a concrete ramp (start 10, max
30, step 10) and a concrete steady-state outcome at concurrency 7. -/
theorem c7_concurrency_witness :
    List.Chain' (· ≤ ·) (rampLevels 4 10 30 10) ∧
    (iterOutcome baseConfig 0 7 aliveIter).Concurrency = 7 :=
  ⟨c7_concurrency_monotone_then_frozen.1 4 10 30 10 (by decide),
   c7_concurrency_monotone_then_frozen.2 baseConfig 0 7 [aliveIter] _ (List.mem_singleton_self _)⟩

/-- C3 counterexample: with rangeLength equal to objectSize (both 4), a
live worker iteration produces no request at all — the worker hits the
`maxStart <= 0` guard and returns — refuting that every produced request
has rangeStart 0 and that a request is in fact produced. -/
theorem c3_equal_range_no_request :
    workerRun cfgRangeEqual 0 1 [aliveIter] = [] := rfl

/-- C3 amended: when rangeLength ≥ objectSize the worker treats the
configuration as invalid and produces no request at all (in particular
for rangeLength = objectSize no request is produced); when rangeLength <
objectSize every sampled rangeStart lies in the half-open interval
[0, objectSize − rangeLength) — the right endpoint is never sampled —
and every value of that interval is attainable. -/
theorem c3_range_sampling :
    (∀ cfg : Config, cfg.ObjectSize ≤ cfg.RangeSize →
        ∀ (tid c : Int) (trace : List IterInput), workerRun cfg tid c trace = []) ∧
    (∀ (cfg : Config) (tid c : Int) (trace : List IterInput) (res : RequestResult),
        res ∈ workerRun cfg tid c trace →
          0 ≤ res.RangeStart ∧ res.RangeStart < cfg.ObjectSize - cfg.RangeSize) ∧
    (∀ (cfg : Config) (tid c v : Int), 0 ≤ v → v < cfg.ObjectSize - cfg.RangeSize →
        ∃ i : IterInput,
          (workerRun cfg tid c [i]).map RequestResult.RangeStart = [v]) := by
  refine ⟨?_, ?_, ?_⟩
  · intro cfg hg tid c trace
    exact workerRun_guard_nil hg tid c trace
  · intro cfg tid c trace res h
    obtain ⟨hlt, i, -, rfl⟩ := mem_workerRun h
    have hpos : (0 : Int) < cfg.ObjectSize - cfg.RangeSize := by omega
    have hRS : (iterOutcome cfg tid c i).RangeStart
        = (i.r : Int) % (cfg.ObjectSize - cfg.RangeSize) := rfl
    rw [hRS]
    exact ⟨Int.emod_nonneg _ (by omega), Int.emod_lt_of_pos _ hpos⟩
  · intro cfg tid c v hv0 hvlt
    refine ⟨{ aliveIter with r := v.toNat }, ?_⟩
    rw [workerRun_cons, if_neg (by simp [aliveIter]), if_neg (by simp [aliveIter]),
      if_neg (by omega)]
    have hRS : (iterOutcome cfg tid c { aliveIter with r := v.toNat }).RangeStart
        = ((v.toNat : Int)) % (cfg.ObjectSize - cfg.RangeSize) := rfl
    simp only [workerRun_nil, List.map_cons, List.map_nil, hRS, List.cons.injEq, and_true]
    rw [Int.toNat_of_nonneg hv0]
    exact Int.emod_eq_of_lt hv0 hvlt

/-- C3 witness: the amended theorem applied at concrete inputs — the
equal-size configuration yields no request; a request of the small-range
configuration has its start inside the half-open interval; the start
value 1 is attainable for objectSize 4, rangeSize 2. -/
theorem c3_range_sampling_witness :
    workerRun cfgRangeEqual 0 1 [aliveIter, aliveIter2] = [] ∧
    (0 ≤ (iterOutcome cfgRangeSmall 0 1 aliveIter2).RangeStart ∧
      (iterOutcome cfgRangeSmall 0 1 aliveIter2).RangeStart
        < cfgRangeSmall.ObjectSize - cfgRangeSmall.RangeSize) ∧
    ∃ i : IterInput,
      (workerRun cfgRangeSmall 0 1 [i]).map RequestResult.RangeStart = [1] :=
  ⟨c3_range_sampling.1 cfgRangeEqual (by decide) 0 1 [aliveIter, aliveIter2],
   c3_range_sampling.2.1 cfgRangeSmall 0 1 [aliveIter2] _ (List.mem_singleton_self _),
   c3_range_sampling.2.2 cfgRangeSmall 0 1 1 (by decide) (by decide)⟩

/-- C4 counterexample: at a full results channel the newest outcome is
discarded and the only state change is one more logged warning line —
no dropped-outcome counter exists — and the message the run ends with is
a constant that cannot surface any drop count: it is the same whether
one drop or none was logged. -/
theorem c4_drop_not_surfaced :
    offerResult { queue := fullQueue, warnings := 0 } (sampleResult 1)
      = { queue := fullQueue, warnings := 1 } ∧
    sampleResult 1 ∉ fullQueue ∧
    benchmarkCompletionLog 1 = benchmarkCompletionLog 0 := by
  refine ⟨?_, ?_, rfl⟩
  · rw [offerResult, if_neg (by simp [fullQueue])]
  · simp [fullQueue, List.mem_replicate, sampleResult]

/-- C4 amended: the hand-off is non-blocking with drop-newest-on-full
semantics, the only record of a drop being a logged warning: below
capacity the outcome is enqueued and nothing is logged; at capacity the
queue is unchanged and exactly one warning is logged; across any offered
sequence every outcome is accounted for either in the queue or by
exactly one warning, and the queue length never exceeds the channel
capacity.  No drop counter is surfaced in any final summary. -/
theorem c4_drop_on_full_accounting :
    (∀ (s : SinkState) (r : RequestResult), s.queue.length < resultsChanCapacity →
        offerResult s r = { queue := s.queue ++ [r], warnings := s.warnings }) ∧
    (∀ (s : SinkState) (r : RequestResult), resultsChanCapacity ≤ s.queue.length →
        offerResult s r = { queue := s.queue, warnings := s.warnings + 1 }) ∧
    (∀ (s : SinkState) (outs : List RequestResult),
        (drainToSink s outs).queue.length + (drainToSink s outs).warnings
          = s.queue.length + s.warnings + outs.length) ∧
    (∀ (s : SinkState) (outs : List RequestResult),
        s.queue.length ≤ resultsChanCapacity →
        (drainToSink s outs).queue.length ≤ resultsChanCapacity) := by
  refine ⟨?_, ?_, ?_, ?_⟩
  · intro s r h
    rw [offerResult, if_pos h]
  · intro s r h
    rw [offerResult, if_neg (by omega)]
  · intro s outs
    induction outs generalizing s with
    | nil => simp [drainToSink]
    | cons r rs ih =>
      rw [drainToSink, ih (offerResult s r), offerResult]
      by_cases h : s.queue.length < resultsChanCapacity
      · rw [if_pos h]; simp; omega
      · rw [if_neg h]; simp; omega
  · intro s outs
    induction outs generalizing s with
    | nil => intro h; simpa [drainToSink] using h
    | cons r rs ih =>
      intro h
      rw [drainToSink]
      apply ih
      rw [offerResult]
      by_cases hlt : s.queue.length < resultsChanCapacity
      · rw [if_pos hlt]; simp; omega
      · rw [if_neg hlt]; simpa using h

/-- C4 witness: the amended theorem applied at concrete states — an
enqueue below capacity, a drop at capacity, the accounting over a
two-outcome sequence and the capacity bound. -/
theorem c4_drop_on_full_accounting_witness :
    offerResult { queue := [], warnings := 0 } (sampleResult 0)
      = { queue := [sampleResult 0], warnings := 0 } ∧
    offerResult { queue := fullQueue, warnings := 3 } (sampleResult 2)
      = { queue := fullQueue, warnings := 4 } ∧
    (drainToSink { queue := [], warnings := 0 } [sampleResult 0, sampleResult 1]).queue.length
        + (drainToSink { queue := [], warnings := 0 } [sampleResult 0, sampleResult 1]).warnings
      = ([] : List RequestResult).length + 0
        + ([sampleResult 0, sampleResult 1] : List RequestResult).length ∧
    (drainToSink { queue := [], warnings := 0 } [sampleResult 0]).queue.length
      ≤ resultsChanCapacity :=
  ⟨c4_drop_on_full_accounting.1 _ _ (by simp [resultsChanCapacity]),
   c4_drop_on_full_accounting.2.1 _ _ (by simp [fullQueue]),
   c4_drop_on_full_accounting.2.2.1 { queue := [], warnings := 0 } _,
   c4_drop_on_full_accounting.2.2.2 { queue := [], warnings := 0 } _ (by simp)⟩

/-- Helper: folding the aggregator over a window accumulates exactly the
sum of the outcomes' byte counts. -/
theorem observeOutcome_foldl_byteCount (outs : List RequestResult) (acc : WindowAcc) :
    (outs.foldl observeOutcome acc).byteCount
      = acc.byteCount + (outs.map RequestResult.Bytes).sum := by
  induction outs generalizing acc with
  | nil => simp
  | cons r rs ih => simp [List.foldl_cons, observeOutcome, ih, add_assoc]

/-- C6: for every closed aggregation window, the throughput in bits per
second equals the sum of the bytes of the window's outcomes, times 8,
divided by the window's wall-clock duration in seconds (stated exactly
over ℚ, the idealisation of the float64 arithmetic). -/
theorem c6_window_throughput (outs : List RequestResult) (durationSec : ℚ)
    (_hd : 0 < durationSec) :
    (closeWindow (outs.foldl observeOutcome { requestCount := 0, byteCount := 0 })
        durationSec).throughputBitsPerSec
      = (((outs.map RequestResult.Bytes).sum : ℚ) * 8) / durationSec := by
  have hB : (closeWindow (outs.foldl observeOutcome
      { requestCount := 0, byteCount := 0 }) durationSec).throughputBitsPerSec
      = (((outs.foldl observeOutcome
          { requestCount := 0, byteCount := 0 }).byteCount : ℚ) * 8) / durationSec := rfl
  rw [hB, observeOutcome_foldl_byteCount]
  push_cast
  ring_nf

/-- C6 witness: the theorem at a concrete two-outcome window of
duration 2 seconds. -/
theorem c6_window_throughput_witness :
    (closeWindow ([sampleResult 0, sampleResult 1].foldl observeOutcome
        { requestCount := 0, byteCount := 0 }) 2).throughputBitsPerSec
      = ((([sampleResult 0, sampleResult 1].map RequestResult.Bytes).sum : ℚ) * 8) / 2 :=
  c6_window_throughput [sampleResult 0, sampleResult 1] 2 (by norm_num)

/-- C8: a live iteration whose storage call fails still produces exactly
one outcome handed to the sink; the outcome carries the error message as
its classification, HTTPStatus 500 and a zero retry count; and the
worker then proceeds directly to the remaining iterations — the failed
request is not retried. -/
theorem c8_no_retry_one_outcome (cfg : Config) (tid c : Int) (i : IterInput)
    (rest : List IterInput) (hb : i.beforeEnd = true) (hs : i.stopObserved = false)
    (hg : cfg.RangeSize < cfg.ObjectSize) :
    workerRun cfg tid c (i :: rest) = iterOutcome cfg tid c i :: workerRun cfg tid c rest ∧
    (iterOutcome cfg tid c i).RetryCount = 0 ∧
    ∀ m : String, i.errMsg = some m →
      (iterOutcome cfg tid c i).ErrMsg = m ∧ (iterOutcome cfg tid c i).HTTPStatus = 500 := by
  refine ⟨?_, rfl, ?_⟩
  · rw [workerRun_cons, if_neg (by simp [hb]), if_neg (by simp [hs]), if_neg (by omega)]
  · intro m hm
    constructor
    · show i.errMsg.getD "" = m
      rw [hm]
      rfl
    · show (if i.errMsg.isSome then (500 : Int) else 200) = 500
      rw [hm]
      rfl

/-- C8 witness: the theorem at a failing concrete iteration followed by
a further live iteration. -/
theorem c8_no_retry_witness :
    workerRun baseConfig 0 1 [failIter, aliveIter]
      = iterOutcome baseConfig 0 1 failIter :: workerRun baseConfig 0 1 [aliveIter] ∧
    (iterOutcome baseConfig 0 1 failIter).ErrMsg = "connection reset by peer" ∧
    (iterOutcome baseConfig 0 1 failIter).HTTPStatus = 500 ∧
    (iterOutcome baseConfig 0 1 failIter).RetryCount = 0 :=
  have h := c8_no_retry_one_outcome baseConfig 0 1 failIter [aliveIter] rfl rfl (by decide)
  ⟨h.1, (h.2.2 "connection reset by peer" rfl).1,
   (h.2.2 "connection reset by peer" rfl).2, h.2.1⟩

/-- C9: cancellation is cooperative — the stop channel is consulted only
at the top of an iteration, so once it is observed the worker returns at
that check: the emitted outcomes are exactly those of the iterations
strictly before the observation, and no iteration at or after it is
admitted, whatever inputs follow. -/
theorem c9_cooperative_stop (cfg : Config) (tid c : Int)
    (pre post : List IterInput) (i : IterInput) (hstop : i.stopObserved = true) :
    workerRun cfg tid c (pre ++ i :: post) = workerRun cfg tid c pre := by
  induction pre with
  | nil =>
    rw [List.nil_append, workerRun_cons]
    by_cases hb : i.beforeEnd = false
    · rw [if_pos hb]
      rfl
    · rw [if_neg hb, if_pos hstop]
      rfl
  | cons j rest ih =>
    rw [List.cons_append, workerRun_cons, workerRun_cons, ih]

/-- C9 witness: the theorem at a concrete trace whose second iteration
observes the closed stop channel. -/
theorem c9_cooperative_stop_witness :
    workerRun baseConfig 0 1 [aliveIter, stopIter, aliveIter2]
      = workerRun baseConfig 0 1 [aliveIter] :=
  c9_cooperative_stop baseConfig 0 1 [aliveIter] [aliveIter2] stopIter rfl

/-- C10: every emitted outcome has HTTPStatus exactly 200 or exactly
500 and RetryCount 0; the status is 200 exactly when the storage call
returned no error and 500 when it returned any error; and the outcome is
entirely independent of the HTTP status the backend actually answered
with (the client interface does not expose it), so statuses such as 404,
429 or 503 are never recorded on the outcome. -/
theorem c10_status_and_retry_fields :
    (∀ (cfg : Config) (tid c : Int) (trace : List IterInput) (res : RequestResult),
        res ∈ workerRun cfg tid c trace →
          (res.HTTPStatus = 200 ∨ res.HTTPStatus = 500) ∧ res.RetryCount = 0) ∧
    (∀ (cfg : Config) (tid c : Int) (i : IterInput),
        (i.errMsg = none → (iterOutcome cfg tid c i).HTTPStatus = 200) ∧
        ∀ m : String, i.errMsg = some m → (iterOutcome cfg tid c i).HTTPStatus = 500) ∧
    (∀ (cfg : Config) (tid c : Int) (i : IterInput) (s1 s2 : Nat),
        iterOutcome cfg tid c { i with backendStatus := s1 }
          = iterOutcome cfg tid c { i with backendStatus := s2 }) := by
  refine ⟨?_, ?_, ?_⟩
  · intro cfg tid c trace res h
    obtain ⟨-, i, -, rfl⟩ := mem_workerRun h
    cases hm : i.errMsg with
    | none => exact ⟨Or.inl (by simp [iterOutcome, hm]), rfl⟩
    | some m => exact ⟨Or.inr (by simp [iterOutcome, hm]), rfl⟩
  · intro cfg tid c i
    constructor
    · intro h
      simp [iterOutcome, h]
    · intro m h
      simp [iterOutcome, h]
  · intro cfg tid c i s1 s2
    rfl

/-- C10 witness: the theorem at concrete iterations — a backend 404
answered without a client error yields status 200, a failed call yields
status 500, and swapping the backend's actual status changes nothing. -/
theorem c10_status_and_retry_witness :
    ((iterOutcome baseConfig 0 1 iter404).HTTPStatus = 200 ∨
      (iterOutcome baseConfig 0 1 iter404).HTTPStatus = 500) ∧
    (iterOutcome baseConfig 0 1 iter404).RetryCount = 0 ∧
    (iterOutcome baseConfig 0 1 failIter).HTTPStatus = 500 ∧
    iterOutcome baseConfig 0 1 { aliveIter with backendStatus := 404 }
      = iterOutcome baseConfig 0 1 { aliveIter with backendStatus := 200 } :=
  have h1 := c10_status_and_retry_fields.1 baseConfig 0 1 [iter404]
    (iterOutcome baseConfig 0 1 iter404) (List.mem_singleton_self _)
  ⟨h1.1, h1.2,
   (c10_status_and_retry_fields.2.1 baseConfig 0 1 failIter).2 "connection reset by peer" rfl,
   c10_status_and_retry_fields.2.2 baseConfig 0 1 aliveIter 404 200⟩

end R2Bench
